import Mathlib

/-!
Verification of the TactiMerge strength-estimator and match-predictor core.

The estimator (`src/scripts/compute_strengths.py`) and the predictor
(`src/api/main.py`) are shallowly embedded below.  Python floats are
modelled as exact rationals (`ℚ`); a pandas NaN cell is modelled as
`none : Option ℚ`; Python exceptions become `Except` errors; Python
strings used for filesystem paths are modelled as `List Char`.
-/

deriving instance DecidableEq for Except

/-- One historical match, a row of the input CSV of `compute_strengths`
(columns `home_team, away_team, home_xg, away_xg`). -/
structure MatchRecord where
  home_team : String
  away_team : String
  home_xg : ℚ
  away_xg : ℚ
deriving DecidableEq, Repr

/-- One row of the strengths DataFrame built by `compute_strengths`:
the four rating cells, each possibly NaN (`none`). -/
structure StrengthRow where
  atk_home : Option ℚ
  def_home : Option ℚ
  atk_away : Option ℚ
  def_away : Option ℚ
deriving DecidableEq, Repr

/-- Errors the estimator can raise: `ValueError` for an unknown
`fill_method`, `FileNotFoundError` raised by `os.makedirs` (the payload is
the offending directory name). -/
inductive EstimatorError where
  | valueError (msg : String)
  | fileNotFoundError (dir : List Char)
deriving DecidableEq, Repr

/-- Mean of a pandas column: `none` on an empty column (numpy returns NaN
on an empty slice), otherwise sum divided by length. -/
def colMean (xs : List ℚ) : Option ℚ :=
  if xs = [] then none else some (xs.sum / xs.length)

/-- `df.groupby(key).val.mean()` evaluated at group `t`: the mean of
`val` over the records whose `key` equals `t` (`none` when `t` has no
group, i.e. the outer-joined cell is NaN). -/
def groupMean (key : MatchRecord → String) (val : MatchRecord → ℚ)
    (df : List MatchRecord) (t : String) : Option ℚ :=
  colMean ((df.filter (fun r => key r == t)).map val)

/-- Insert into a sorted list, keeping it sorted. -/
def insertSorted (x : ℚ) : List ℚ → List ℚ
  | [] => [x]
  | y :: ys => if x ≤ y then x :: y :: ys else y :: insertSorted x ys

/-- Sort ascending (insertion sort). -/
def sortQ (xs : List ℚ) : List ℚ := xs.foldr insertSorted []

/-- `series.median()` of a pandas group: middle element of the sorted
values, or the average of the two middle elements; `none` (NaN) on an
empty series. -/
def listMedian (xs : List ℚ) : Option ℚ :=
  if xs = [] then none
  else
    let s := sortQ xs
    let n := s.length
    if n % 2 = 1 then s.get? (n / 2)
    else (s.get? (n / 2 - 1)).bind (fun a => (s.get? (n / 2)).map (fun b => (a + b) / 2))

/-- First-occurrence deduplication, tracking the labels already seen. -/
def dedupAux (seen : List String) : List String → List String
  | [] => []
  | x :: rest =>
    if seen.contains x then dedupAux seen rest
    else x :: dedupAux (x :: seen) rest

/-- Keys of `pd.concat([...], axis=1)`: every team that appears in either
grouping, one row each.  (pandas sorts the joined index; row order is
irrelevant to every property proved here, so first-appearance order is
used.) -/
def dedupKeys (l : List String) : List String := dedupAux [] l

/-- The index of the `strengths` DataFrame: teams appearing as a home or
away side in any record. -/
def tableTeams (df : List MatchRecord) : List String :=
  dedupKeys ((df.map (fun r => r.home_team)) ++ (df.map (fun r => r.away_team)))

/-- The raw (pre-fill) strengths row of team `t`:
`atk_home`/`def_home` from the home grouping (`home_xg` scored,
`away_xg` conceded via the `home_concede` copy), `atk_away`/`def_away`
from the away grouping. -/
def rawStrengths (df : List MatchRecord) (t : String) : StrengthRow :=
  { atk_home := groupMean (fun r => r.home_team) (fun r => r.home_xg) df t
    def_home := groupMean (fun r => r.home_team) (fun r => r.away_xg) df t
    atk_away := groupMean (fun r => r.away_team) (fun r => r.away_xg) df t
    def_away := groupMean (fun r => r.away_team) (fun r => r.home_xg) df t }

/-- `df[["home_xg","away_xg"]].values.mean()`: the scalar league mean of
every `home_xg` and `away_xg` value; `none` (NaN) on an empty history. -/
def leagueMeanFill (df : List MatchRecord) : Option ℚ :=
  colMean (df.map (fun r => r.home_xg) ++ df.map (fun r => r.away_xg))

/-- `fillna` on one cell: a defined cell is kept; a NaN cell receives the
fill value (which may itself be NaN = `none`, leaving the cell NaN). -/
def fillCell (v : Option ℚ) (c : Option ℚ) : Option ℚ :=
  match c with
  | some x => some x
  | none => v

/-- `strengths.fillna(scalar)` on one row. -/
def fillRowScalar (v : Option ℚ) (r : StrengthRow) : StrengthRow :=
  { atk_home := fillCell v r.atk_home
    def_home := fillCell v r.def_home
    atk_away := fillCell v r.atk_away
    def_away := fillCell v r.def_away }

/-- `strengths.fillna(dict)` on one row: pandas looks each **column
name** up in the dict and fills the NaN cells of that column with the
mapped value; keys absent from the dict leave the column untouched. -/
def fillnaColumns (d : String → Option ℚ) (r : StrengthRow) : StrengthRow :=
  { atk_home := fillCell (d "atk_home") r.atk_home
    def_home := fillCell (d "def_home") r.def_home
    atk_away := fillCell (d "atk_away") r.atk_away
    def_away := fillCell (d "def_away") r.def_away }

/-- The `team_median` dict: per-team median of `home_xg` over home
matches, `combine_first` the per-team median of `away_xg` over away
matches (home median wins where both exist). -/
def teamMedianDict (df : List MatchRecord) (t : String) : Option ℚ :=
  match listMedian ((df.filter (fun r => r.home_team == t)).map (fun r => r.home_xg)) with
  | some m => some m
  | none => listMedian ((df.filter (fun r => r.away_team == t)).map (fun r => r.away_xg))

/-- `os.path.splitext`, on the char-list model of a Python string: split
at the last dot of the basename, unless every character of the basename
before that dot is itself a dot. -/
def splitext (cs : List Char) : List Char × List Char :=
  let rev := cs.reverse
  let base_rev := rev.takeWhile (fun c => c != '/')
  match base_rev.dropWhile (fun c => c != '.') with
  | [] => (cs, [])
  | _ :: restRev =>
    if restRev.any (fun c => c != '.') then
      let n := (base_rev.takeWhile (fun c => c != '.')).length + 1
      ((rev.drop n).reverse, (rev.take n).reverse)
    else (cs, [])

/-- `os.path.dirname`: the part before the last slash, with trailing
slashes stripped unless the result would consist only of slashes. -/
def dirnameCh (cs : List Char) : List Char :=
  let head_rev := cs.reverse.dropWhile (fun c => c != '/')
  if head_rev.any (fun c => c != '/') then
    (head_rev.dropWhile (fun c => c == '/')).reverse
  else head_rev.reverse

/-- `os.makedirs(name, exist_ok=True)`, with the filesystem idealized:
any non-empty directory path can be created, while the empty name (the
`dirname` of a bare filename) raises `FileNotFoundError` exactly as
CPython does. -/
def makedirs (name : List Char) : Except EstimatorError Unit :=
  if name = [] then Except.error (EstimatorError.fileNotFoundError name)
  else Except.ok ()

/-- The versioned output path: base of `output_csv`, then `_`, the
version tag, and the original extension. -/
def versionedPath (output_csv version : List Char) : List Char :=
  (splitext output_csv).1 ++ ('_' :: version) ++ (splitext output_csv).2

/-- `compute_strengths` from `src/scripts/compute_strengths.py`: group
the history into the four rating columns, outer-join, fill NaNs by the
selected strategy, then create the output directory and write the table.
The successful result is the versioned path together with the written
table; reading the input CSV is modelled by receiving the records. -/
def compute_strengths (df : List MatchRecord) (output_csv : List Char)
    (fill_method : String) (version : List Char) :
    Except EstimatorError (List Char × List (String × StrengthRow)) :=
  let raw := (tableTeams df).map (fun t => (t, rawStrengths df t))
  let filled : Except EstimatorError (List (String × StrengthRow)) :=
    if fill_method = "league_mean" then
      Except.ok (raw.map (fun p => (p.1, fillRowScalar (leagueMeanFill df) p.2)))
    else if fill_method = "team_median" then
      Except.ok (raw.map (fun p => (p.1, fillnaColumns (teamMedianDict df) p.2)))
    else if fill_method = "zero" then
      Except.ok (raw.map (fun p => (p.1, fillRowScalar (some 0) p.2)))
    else
      Except.error (EstimatorError.valueError ("Unknown fill_method: " ++ fill_method))
  match filled with
  | Except.error e => Except.error e
  | Except.ok strengths =>
    match makedirs (dirnameCh (versionedPath output_csv version)) with
    | Except.error e => Except.error e
    | Except.ok _ => Except.ok (versionedPath output_csv version, strengths)

/-! ### Durable storage (`to_csv` / `read_csv`) -/

/-- The tabular file written by `strengths.to_csv`: a header naming the
four rating columns and one row per team, team name first (the index
column), then the cells in header order.  Cell values are carried
exactly: pandas writes floats with `repr`, which round-trips a float64
bit-for-bit, and a NaN cell as an empty field that reads back as NaN. -/
structure CsvFile where
  header : List String
  rows : List (String × List (Option ℚ))
deriving DecidableEq, Repr

/-- Column order of the strengths CSV. -/
def strengthHeader : List String := ["atk_home", "def_home", "atk_away", "def_away"]

/-- `strengths.to_csv(path)`. -/
def to_csv (tbl : List (String × StrengthRow)) : CsvFile :=
  { header := strengthHeader
    rows := tbl.map (fun p =>
      (p.1, [p.2.atk_home, p.2.def_home, p.2.atk_away, p.2.def_away])) }

/-- The cell of a CSV row under column `col`, located through the header
(as `pd.read_csv(..., index_col=0)` does). -/
def cellAt (header : List String) (cells : List (Option ℚ)) (col : String) : Option ℚ :=
  match header.findIdx? (fun h => h == col) with
  | none => none
  | some i => (cells.get? i).getD none

/-- `pd.read_csv(path, index_col=0)` of a strengths CSV, back into rows
keyed by team name. -/
def read_csv (f : CsvFile) : List (String × StrengthRow) :=
  f.rows.map (fun p =>
    (p.1,
      { atk_home := cellAt f.header p.2 "atk_home"
        def_home := cellAt f.header p.2 "def_home"
        atk_away := cellAt f.header p.2 "atk_away"
        def_away := cellAt f.header p.2 "def_away" }))

/-- Two optional cells agree within `tol`: both NaN, or both defined and
at distance at most `tol`. -/
def cellsWithin (tol : ℚ) (a b : Option ℚ) : Bool :=
  match a, b with
  | none, none => true
  | some x, some y => decide (|x - y| ≤ tol)
  | _, _ => false

/-- Two strength rows agree cell-wise within `tol`. -/
def rowsWithin (tol : ℚ) (a b : StrengthRow) : Bool :=
  cellsWithin tol a.atk_home b.atk_home && cellsWithin tol a.def_home b.def_home &&
  cellsWithin tol a.atk_away b.atk_away && cellsWithin tol a.def_away b.def_away

/-- Two strength tables agree row-wise within `tol`: same length, same
team at each position, cells within `tol`. -/
def tablesWithin (tol : ℚ) (t1 t2 : List (String × StrengthRow)) : Bool :=
  t1.length == t2.length &&
  (t1.zip t2).all (fun pp => pp.1.1 == pp.2.1 && rowsWithin tol pp.1.2 pp.2.2)

/-! ### The match predictor (`src/api/main.py`) -/

/-- One row of the loaded strengths table as the API consumes it
(`strengths.at[team, col]` always yields a number here; a NaN cell of a
buggy table would simply propagate through arithmetic, which the claims
below never exercise). -/
structure TeamRow where
  atk_home : ℚ
  def_home : ℚ
  atk_away : ℚ
  def_away : ℚ
deriving DecidableEq, Repr

/-- The in-memory strengths table of the API: rows keyed by team name. -/
abbrev StrengthTable := List (String × TeamRow)

/-- Errors surfaced by the API endpoints: a raw pandas `KeyError` (which
FastAPI turns into a generic 500, not a not-found response) and an
explicit `HTTPException(status, detail)`. -/
inductive ApiError where
  | keyError (key : String)
  | httpException (status : Nat) (detail : String)
deriving DecidableEq, Repr

/-- `team in strengths.index` / `strengths.loc[team]`: the first row
whose index label equals `team`. -/
def lookupRow (tbl : StrengthTable) (t : String) : Option TeamRow :=
  (tbl.find? (fun p => p.1 == t)).map (fun p => p.2)

/-- The detail string of the 404 raised by `compare`:
`f"Team '{team}' not found"`. -/
def notFoundDetail (t : String) : String :=
  "Team " ++ "\x27" ++ t ++ "\x27" ++ " not found"

/-- `P(k) = lambda^k / k!`, the Poisson probability mass at `k` with the
positive factor `e^(-lambda)` (common to every `k` of one distribution)
factored out; every comparison the predictor performs is invariant under
that factor, which `poissonPmf_le_iff` below makes precise. -/
def scoreMass (lam : ℚ) (k : ℕ) : ℚ := lam ^ k / (Nat.factorial k)

/-- `poisson_score(atk, def_, league_avg)`: the score distribution
`{k: pmf(k, atk*def_/league_avg) for k in range(6)}`, as its mass
function (values at keys `0..5`). -/
def poisson_score (atk def_ league_avg : ℚ) : ℕ → ℚ :=
  scoreMass (atk * def_ / league_avg)

/-- `max(iterable, key=f)`: fold over the remaining keys, replacing the
current best only on a strictly larger key value — the first maximum
wins. -/
def maxKeyFirst (f : ℕ → ℚ) : List ℕ → ℕ → ℕ
  | [], best => best
  | k :: rest, best => maxKeyFirst f rest (if f best < f k then k else best)

/-- The keys of the `poisson_score` dict after its first element, in
insertion order. -/
def scoreKeysTail : List ℕ := [1, 2, 3, 4, 5]

/-- `strengths[["atk_home","atk_away"]].values.mean()`: the league
average the prediction endpoint recomputes on every call. -/
def predictLeagueAvg (tbl : StrengthTable) : ℚ :=
  ((tbl.map (fun p => p.2.atk_home + p.2.atk_away)).sum) / (2 * tbl.length)

/-- `strengths[["atk_home","def_home","atk_away","def_away"]].values.mean()`:
the all-metric league average the compare endpoint recomputes. -/
def compareLeagueAvg (tbl : StrengthTable) : ℚ :=
  ((tbl.map (fun p => p.2.atk_home + p.2.def_home + p.2.atk_away + p.2.def_away)).sum)
    / (4 * tbl.length)

/-- Python's `round` to `n` decimal digits: round half to even. -/
def roundHalfEven (q : ℚ) : ℤ :=
  if q - ⌊q⌋ < 1 / 2 then ⌊q⌋
  else if 1 / 2 < q - ⌊q⌋ then ⌊q⌋ + 1
  else if ⌊q⌋ % 2 = 0 then ⌊q⌋ else ⌊q⌋ + 1

/-- `round(q, n)`. -/
def pyRound (q : ℚ) (n : ℕ) : ℚ := (roundHalfEven (q * 10 ^ n) : ℚ) / 10 ^ n

/-- The `/predict` response body. -/
structure PredictResponse where
  home_team : String
  away_team : String
  predicted_score : String
  expected_xg : ℚ
deriving DecidableEq, Repr

/-- The `predict` endpoint.  The pandas `.at` lookups run in source
order (`atk_home` of the home team first, then `def_away` of the away
team), so a missing home team raises `KeyError(home)` and a present home
team with a missing away team raises `KeyError(away)` — there is no
dedicated not-found check on this path. -/
def predict (tbl : StrengthTable) (home away : String) : Except ApiError PredictResponse :=
  match lookupRow tbl home with
  | none => Except.error (ApiError.keyError home)
  | some rh =>
    match lookupRow tbl away with
    | none => Except.error (ApiError.keyError away)
    | some ra =>
      let league_avg := predictLeagueAvg tbl
      let dist_h := poisson_score rh.atk_home ra.def_away league_avg
      let dist_a := poisson_score ra.atk_away rh.def_home league_avg
      let home_goals := maxKeyFirst dist_h scoreKeysTail 0
      let away_goals := maxKeyFirst dist_a scoreKeysTail 0
      let exp_xg := (rh.atk_home * ra.def_away + ra.atk_away * rh.def_home) / (2 * league_avg)
      Except.ok
        { home_team := home, away_team := away
          predicted_score := toString home_goals ++ "-" ++ toString away_goals
          expected_xg := pyRound exp_xg 2 }

/-- One team's block of the `/compare` response. -/
structure TeamCompareStats where
  team : String
  atk_home : ℚ
  def_home : ℚ
  atk_away : ℚ
  def_away : ℚ
  atk_home_ratio : ℚ
  def_home_ratio : ℚ
  atk_away_ratio : ℚ
  def_away_ratio : ℚ
deriving DecidableEq, Repr

/-- The stats block `get_team_stats` builds for a present team. -/
def mkStats (team : String) (row : TeamRow) (league_avg : ℚ) : TeamCompareStats :=
  { team := team
    atk_home := row.atk_home
    def_home := row.def_home
    atk_away := row.atk_away
    def_away := row.def_away
    atk_home_ratio := row.atk_home / league_avg
    def_home_ratio := row.def_home / league_avg
    atk_away_ratio := row.atk_away / league_avg
    def_away_ratio := row.def_away / league_avg }

/-- `get_team_stats` of the compare endpoint: 404 naming the team when it
is absent from the index, otherwise the raw ratings and their ratios to
the all-metric league average. -/
def get_team_stats (tbl : StrengthTable) (league_avg : ℚ) (team : String) :
    Except ApiError TeamCompareStats :=
  match lookupRow tbl team with
  | none => Except.error (ApiError.httpException 404 (notFoundDetail team))
  | some row => Except.ok (mkStats team row league_avg)

/-- The `/compare` response body. -/
structure CompareResponse where
  league_avg : ℚ
  stats : List TeamCompareStats
  expected_xg_a_vs_b : ℚ
  expected_xg_b_vs_a : ℚ
deriving DecidableEq, Repr

/-- The `compare` endpoint: all-metric league average first, then the two
stats lookups in order, then the two one-directional expected-xG values
(`atk_home` of the host times `def_away` of the guest over the
all-metric league average). -/
def Api.compare (tbl : StrengthTable) (team_a team_b : String) : Except ApiError CompareResponse :=
  let league_avg := compareLeagueAvg tbl
  match get_team_stats tbl league_avg team_a with
  | Except.error e => Except.error e
  | Except.ok stats_a =>
    match get_team_stats tbl league_avg team_b with
    | Except.error e => Except.error e
    | Except.ok stats_b =>
      Except.ok
        { league_avg := pyRound league_avg 3
          stats := [stats_a, stats_b]
          expected_xg_a_vs_b := pyRound (stats_a.atk_home * stats_b.def_away / league_avg) 2
          expected_xg_b_vs_a := pyRound (stats_b.atk_home * stats_a.def_away / league_avg) 2 }

/-! ### The true (real-valued) Poisson pmf, for stating the claims -/

/-- The genuine truncated-Poisson probability mass
`P(k) = e^(-lambda) * lambda^k / k!` that `scipy.stats.poisson.pmf`
computes. -/
noncomputable def poissonPmf (lam : ℚ) (k : ℕ) : ℝ :=
  Real.exp (-(lam : ℝ)) * (lam : ℝ) ^ k / (Nat.factorial k)

/-- `max(iterable, key=f)` over real-valued keys, for stating that the
predictor's argmax agrees with the argmax of the true pmf. -/
noncomputable def maxKeyFirstR (f : ℕ → ℝ) : List ℕ → ℕ → ℕ
  | [], best => best
  | k :: rest, best => maxKeyFirstR f rest (if f best < f k then k else best)


/-! ### Concrete inputs used by counterexamples and witnesses -/

/-- A table containing Liverpool but not Arsenal. -/
def tblMissing : StrengthTable := [("Liverpool", ⟨1, 1, 1, 1⟩)]

/-- One match: A at home against B, xG 1 and 2. -/
def dfSingle : List MatchRecord := [⟨"A", "B", 1, 2⟩]

/-- Two matches giving team B a defined away-role median but no home
matches (and team C the mirror situation). -/
def dfAsym : List MatchRecord := [⟨"A", "B", 1, 2⟩, ⟨"C", "A", 3, 4⟩]

/-- The worked example of the specification: `atk_home(Arsenal)=2`,
`def_away(Liverpool)=1`, `atk_away(Liverpool)=3/2`, `def_home(Arsenal)=1`,
and the remaining cells chosen so the two-column league average is `3/2`. -/
def tblExample : StrengthTable :=
  [("Arsenal", ⟨2, 1, 3/2, 1⟩), ("Liverpool", ⟨1, 1, 3/2, 1⟩)]

/-- A table on which the two-column league average (2) and the
four-column league average (3) differ. -/
def tblUniform : StrengthTable := [("A", ⟨2, 4, 2, 4⟩), ("B", ⟨2, 4, 2, 4⟩)]

/-- Two home matches of team A, for the grouping-mean witness. -/
def dfHomePair : List MatchRecord := [⟨"A", "B", 2, 1⟩, ⟨"A", "C", 4, 3⟩]

/-! ### Helper lemmas -/

theorem mem_dedupAux (t : String) :
    ∀ (l seen : List String), t ∈ dedupAux seen l ↔ t ∈ l ∧ t ∉ seen := by
  intro l
  induction l with
  | nil => intro seen; simp [dedupAux]
  | cons x rest ih =>
    intro seen
    by_cases hx : seen.contains x
    · rw [dedupAux, if_pos hx, ih]
      have hxs : x ∈ seen := by simpa using hx
      simp only [List.mem_cons]
      constructor
      · rintro ⟨h1, h2⟩; exact ⟨Or.inr h1, h2⟩
      · rintro ⟨h1 | h1, h2⟩
        · exact absurd (h1 ▸ hxs) h2
        · exact ⟨h1, h2⟩
    · rw [dedupAux, if_neg hx]
      have hxs : x ∉ seen := by simpa using hx
      simp only [List.mem_cons, ih]
      constructor
      · rintro (h | ⟨h1, h2⟩)
        · exact ⟨Or.inl h, h ▸ hxs⟩
        · exact ⟨Or.inr h1, fun hc => h2 (Or.inr hc)⟩
      · rintro ⟨h1 | h1, h2⟩
        · exact Or.inl h1
        · by_cases hxt : t = x
          · exact Or.inl hxt
          · exact Or.inr ⟨h1, fun hc => hc.elim hxt h2⟩

theorem mem_dedupKeys (t : String) (l : List String) : t ∈ dedupKeys l ↔ t ∈ l := by
  rw [dedupKeys, mem_dedupAux]; simp

theorem filter_key_ne_nil (df : List MatchRecord) (key : MatchRecord → String) (t : String) :
    df.filter (fun r => key r == t) ≠ [] ↔ t ∈ df.map key := by
  rw [Ne, List.filter_eq_nil_iff]
  simp only [List.mem_map]
  push_neg
  constructor
  · rintro ⟨r, hr, h⟩
    exact ⟨r, hr, by simpa using h⟩
  · rintro ⟨r, hr, h⟩
    exact ⟨r, hr, by simpa using h⟩

theorem mem_tableTeams (df : List MatchRecord) (t : String) :
    t ∈ tableTeams df ↔
      df.filter (fun r => r.home_team == t) ≠ [] ∨
      df.filter (fun r => r.away_team == t) ≠ [] := by
  rw [tableTeams, mem_dedupKeys, List.mem_append, filter_key_ne_nil, filter_key_ne_nil]

theorem read_csv_to_csv (tbl : List (String × StrengthRow)) : read_csv (to_csv tbl) = tbl := by
  induction tbl with
  | nil => rfl
  | cons p rest ih =>
    obtain ⟨name, a, b, c, d⟩ := p
    simpa [read_csv, to_csv, cellAt, strengthHeader] using
      (by simpa [read_csv, to_csv] using ih)

theorem cellsWithin_refl (tol : ℚ) (h : 0 ≤ tol) (c : Option ℚ) : cellsWithin tol c c = true := by
  cases c with
  | none => rfl
  | some x => simp [cellsWithin, h]

theorem tablesWithin_refl (tol : ℚ) (h : 0 ≤ tol) (t : List (String × StrengthRow)) :
    tablesWithin tol t t = true := by
  have hall : ∀ l : List (String × StrengthRow),
      (List.zip l l).all (fun pp => pp.1.1 == pp.2.1 && rowsWithin tol pp.1.2 pp.2.2) = true := by
    intro l
    induction l with
    | nil => rfl
    | cons p rest ih =>
      simp only [List.zip_cons_cons, List.all_cons, ih, Bool.and_true]
      simp [rowsWithin, cellsWithin_refl tol h]
  rw [tablesWithin]
  simp [hall t]

/-! ### Claim C1 -/

/-- Claim C1, counterexample: with Arsenal absent and Liverpool present,
`predict` fails with the raw pandas `KeyError` — a generic error that the
HTTP layer surfaces as a 500 — not with the dedicated not-found error
(`HTTPException 404` naming the team) that the claim requires and that
only `compare` produces. -/
theorem predict_unknown_team_generic_error :
    predict tblMissing "Arsenal" "Liverpool" = Except.error (ApiError.keyError "Arsenal") ∧
    ApiError.keyError "Arsenal" ≠ ApiError.httpException 404 (notFoundDetail "Arsenal") := by
  with_unfolding_all decide

/-- Claim C1 (amended): in `compare`, a missing team fails with the 404
`HTTPException` naming exactly the missing team, even when the other team
is present; in `predict`, a missing team fails with a generic `KeyError`
on the missing team's name (the first of the two lookups to miss), with
no dedicated not-found check. -/
theorem team_lookup_failure_modes (tbl : StrengthTable) (a b : String) :
    (lookupRow tbl a = none →
      predict tbl a b = Except.error (ApiError.keyError a) ∧
      Api.compare tbl a b = Except.error (ApiError.httpException 404 (notFoundDetail a))) ∧
    (∀ row : TeamRow, lookupRow tbl a = some row → lookupRow tbl b = none →
      predict tbl a b = Except.error (ApiError.keyError b) ∧
      Api.compare tbl a b = Except.error (ApiError.httpException 404 (notFoundDetail b))) := by
  constructor
  · intro h
    constructor
    · simp [predict, h]
    · simp [Api.compare, get_team_stats, h]
  · intro row h1 h2
    constructor
    · simp [predict, h1, h2]
    · simp [Api.compare, get_team_stats, h1, h2]

/-- Claim C1 (amended), witness at a concrete table. -/
theorem team_lookup_failure_modes_witness :
    predict tblMissing "Arsenal" "Liverpool" = Except.error (ApiError.keyError "Arsenal") ∧
    Api.compare tblMissing "Arsenal" "Liverpool" =
      Except.error (ApiError.httpException 404 (notFoundDetail "Arsenal")) :=
  (team_lookup_failure_modes tblMissing "Arsenal" "Liverpool").1 (by with_unfolding_all decide)

/-! ### Claim C2 -/

/-- Claim C2 (code bug): under `team_median`, `fillna` receives a dict
keyed by team names, which pandas reads as a column-name map; no column
is named after a team, so nothing is filled and the undefined cells
survive into the written table — here `atk_away`/`def_away` of A and
`atk_home`/`def_home` of B stay NaN on a one-match history, contradicting
the docstring's "fill with per-team median xG". -/
theorem team_median_leaves_undefined_cells :
    compute_strengths dfSingle "data/t.csv".toList "team_median" "v1".toList =
      Except.ok ("data/t_v1.csv".toList,
        [("A", ⟨some 1, some 2, none, none⟩), ("B", ⟨none, none, some 2, some 1⟩)]) := by
  with_unfolding_all decide

/-! ### Claim C4 -/

/-- Claim C4 (code bug): the per-team medians are computed and are
defined (B's away-role median is 2, C's home-role median is 3), but the
`fillna(dict)` call keyed by team names fills nothing, so B's undefined
`atk_home`/`def_home` cells (and C's away cells) stay NaN instead of
receiving the team's own median. -/
theorem team_median_fill_ignores_medians :
    compute_strengths dfAsym "data/t.csv".toList "team_median" "v1".toList =
      Except.ok ("data/t_v1.csv".toList,
        [("A", ⟨some 1, some 2, some 4, some 3⟩),
         ("C", ⟨some 3, some 4, none, none⟩),
         ("B", ⟨none, none, some 2, some 1⟩)]) ∧
    teamMedianDict dfAsym "B" = some 2 ∧ teamMedianDict dfAsym "C" = some 3 := by
  with_unfolding_all decide

/-! ### Claim C6 -/

/-- Claim C6, counterexample: on the empty history under `league_mean`
the estimator raises nothing — numpy's mean of an empty slice is NaN
with only a runtime warning, the strengths table has no rows to fill,
and an empty table is written to the versioned output path. -/
theorem empty_history_league_mean_no_error :
    compute_strengths [] "data/t.csv".toList "league_mean" "v1".toList =
      Except.ok ("data/t_v1.csv".toList, []) := by
  with_unfolding_all decide

/-- Claim C6 (amended): for the empty input history under `league_mean`,
`compute_strengths` does not fail: the scalar league mean is undefined
(NaN), but since the table has no rows the NaN is never materialized, and
an empty table is written to the versioned output path (whenever that
path has a creatable directory part). -/
theorem empty_history_league_mean_writes_empty_table (out v : List Char)
    (h : dirnameCh (versionedPath out v) ≠ []) :
    compute_strengths [] out "league_mean" v = Except.ok (versionedPath out v, []) ∧
    leagueMeanFill [] = none := by
  constructor
  · simp [compute_strengths, tableTeams, dedupKeys, dedupAux, makedirs, h]
  · rfl

/-- Claim C6 (amended), witness at a concrete output path. -/
theorem empty_history_league_mean_writes_empty_table_witness :
    compute_strengths [] "out/s.csv".toList "league_mean" "v2".toList =
      Except.ok (versionedPath "out/s.csv".toList "v2".toList, []) ∧
    leagueMeanFill [] = none :=
  empty_history_league_mean_writes_empty_table "out/s.csv".toList "v2".toList
    (by with_unfolding_all decide)

/-! ### Claim C8 -/

/-- Claim C8, counterexample: on `tblUniform` the two-column league
average is 2 but `compare` divides by the four-column average 3, so the
returned `expected_xg_a_vs_b` is 2.67 while the claim's formula
(`atk_home(A) * def_away(B)` over the atk-only average) gives 4.00. -/
theorem compare_league_avg_not_two_column :
    Except.map (fun r => r.expected_xg_a_vs_b) (Api.compare tblUniform "A" "B") =
      Except.ok (267 / 100 : ℚ) ∧
    pyRound ((2 : ℚ) * 4 / predictLeagueAvg tblUniform) 2 = 4 ∧
    ((267 : ℚ) / 100) ≠ 4 := by
  with_unfolding_all decide

/-- Claim C8 (amended): `compare` returns the two directional values
`atk_home(A) * def_away(B) / league_avg` and
`atk_home(B) * def_away(A) / league_avg` rounded to 2 places, but with
`league_avg` the mean of **all four** rating columns across the table
(recomputed on the call) — not the atk-only mean of the prediction
path. -/
theorem compare_directional_xg (tbl : StrengthTable) (a b : String) (ra rb : TeamRow)
    (ha : lookupRow tbl a = some ra) (hb : lookupRow tbl b = some rb) :
    Api.compare tbl a b = Except.ok
      { league_avg := pyRound (compareLeagueAvg tbl) 3
        stats := [mkStats a ra (compareLeagueAvg tbl), mkStats b rb (compareLeagueAvg tbl)]
        expected_xg_a_vs_b := pyRound (ra.atk_home * rb.def_away / compareLeagueAvg tbl) 2
        expected_xg_b_vs_a := pyRound (rb.atk_home * ra.def_away / compareLeagueAvg tbl) 2 } := by
  simp [Api.compare, get_team_stats, ha, hb, mkStats]

/-- Claim C8 (amended), witness at a concrete table. -/
theorem compare_directional_xg_witness :
    Api.compare tblUniform "A" "B" = Except.ok
      { league_avg := 3
        stats := [mkStats "A" ⟨2, 4, 2, 4⟩ 3, mkStats "B" ⟨2, 4, 2, 4⟩ 3]
        expected_xg_a_vs_b := 267 / 100
        expected_xg_b_vs_a := 267 / 100 } :=
  (compare_directional_xg tblUniform "A" "B" ⟨2, 4, 2, 4⟩ ⟨2, 4, 2, 4⟩
    (by with_unfolding_all decide) (by with_unfolding_all decide)).trans
    (by with_unfolding_all decide)

/-! ### Claim C9 -/

/-- Claim C9: any table produced by `compute_strengths`, written with
`to_csv` and loaded back with `read_csv` the way the predictor loads it,
comes back with every team's four rating cells numerically identical to
the written ones — exactly equal, hence within the 1e-9 tolerance. -/
theorem strengths_roundtrip (df : List MatchRecord) (out : List Char) (fm : String)
    (v path : List Char) (tbl : List (String × StrengthRow))
    (h : compute_strengths df out fm v = Except.ok (path, tbl)) :
    read_csv (to_csv tbl) = tbl ∧
    tablesWithin (1 / 1000000000) (read_csv (to_csv tbl)) tbl = true := by
  refine ⟨read_csv_to_csv tbl, ?_⟩
  rw [read_csv_to_csv tbl]
  exact tablesWithin_refl _ (by norm_num) tbl

/-- Claim C9, witness: the table computed from `dfSingle` under the
`zero` strategy round-trips through the CSV layer unchanged. -/
theorem strengths_roundtrip_witness :
    read_csv (to_csv
        [("A", ⟨some 1, some 2, some 0, some 0⟩), ("B", ⟨some 0, some 0, some 2, some 1⟩)]) =
      [("A", ⟨some 1, some 2, some 0, some 0⟩), ("B", ⟨some 0, some 0, some 2, some 1⟩)] ∧
    tablesWithin (1 / 1000000000)
      (read_csv (to_csv
        [("A", ⟨some 1, some 2, some 0, some 0⟩), ("B", ⟨some 0, some 0, some 2, some 1⟩)]))
      [("A", ⟨some 1, some 2, some 0, some 0⟩), ("B", ⟨some 0, some 0, some 2, some 1⟩)] = true :=
  strengths_roundtrip dfSingle "data/t.csv".toList "zero" "v1".toList
    "data/t_v1.csv".toList _ (by with_unfolding_all decide)

/-! ### Claim C5 -/

/-- Claim C5: for every team appearing as a home side, `atk_home` is the
mean of `home_xg` and `def_home` the mean of the opponents' `away_xg`
over that team's home matches; symmetrically for the away side; and the
outer join produces a row exactly for the teams appearing in either
role. -/
theorem strengths_grouping_means (df : List MatchRecord) (t : String) :
    (df.filter (fun r => r.home_team == t) ≠ [] →
      (rawStrengths df t).atk_home =
        some (((df.filter (fun r => r.home_team == t)).map (fun r => r.home_xg)).sum /
          ((df.filter (fun r => r.home_team == t)).map (fun r => r.home_xg)).length) ∧
      (rawStrengths df t).def_home =
        some (((df.filter (fun r => r.home_team == t)).map (fun r => r.away_xg)).sum /
          ((df.filter (fun r => r.home_team == t)).map (fun r => r.away_xg)).length)) ∧
    (df.filter (fun r => r.away_team == t) ≠ [] →
      (rawStrengths df t).atk_away =
        some (((df.filter (fun r => r.away_team == t)).map (fun r => r.away_xg)).sum /
          ((df.filter (fun r => r.away_team == t)).map (fun r => r.away_xg)).length) ∧
      (rawStrengths df t).def_away =
        some (((df.filter (fun r => r.away_team == t)).map (fun r => r.home_xg)).sum /
          ((df.filter (fun r => r.away_team == t)).map (fun r => r.home_xg)).length)) ∧
    (t ∈ tableTeams df ↔
      df.filter (fun r => r.home_team == t) ≠ [] ∨
      df.filter (fun r => r.away_team == t) ≠ []) := by
  refine ⟨?_, ?_, mem_tableTeams df t⟩
  · intro h
    have hmap : ∀ val : MatchRecord → ℚ,
        (df.filter (fun r => r.home_team == t)).map val ≠ [] :=
      fun val hc => h (List.map_eq_nil_iff.mp hc)
    constructor
    · show groupMean (fun r => r.home_team) (fun r => r.home_xg) df t = _
      rw [groupMean, colMean, if_neg (hmap (fun r => r.home_xg))]
    · show groupMean (fun r => r.home_team) (fun r => r.away_xg) df t = _
      rw [groupMean, colMean, if_neg (hmap (fun r => r.away_xg))]
  · intro h
    have hmap : ∀ val : MatchRecord → ℚ,
        (df.filter (fun r => r.away_team == t)).map val ≠ [] :=
      fun val hc => h (List.map_eq_nil_iff.mp hc)
    constructor
    · show groupMean (fun r => r.away_team) (fun r => r.away_xg) df t = _
      rw [groupMean, colMean, if_neg (hmap (fun r => r.away_xg))]
    · show groupMean (fun r => r.away_team) (fun r => r.home_xg) df t = _
      rw [groupMean, colMean, if_neg (hmap (fun r => r.home_xg))]

/-- Claim C5, witness: team A's two home matches with xG 2 and 4 (conceding
1 and 3) give `atk_home = 3` and `def_home = 2`. -/
theorem strengths_grouping_means_witness :
    (rawStrengths dfHomePair "A").atk_home = some 3 ∧
    (rawStrengths dfHomePair "A").def_home = some 2 := by
  obtain ⟨h1, h2⟩ := (strengths_grouping_means dfHomePair "A").1 (by with_unfolding_all decide)
  exact ⟨h1.trans (by with_unfolding_all decide), h2.trans (by with_unfolding_all decide)⟩

/-! ### The predictor's argmax against the true Poisson pmf -/

theorem poissonPmf_eq (lam : ℚ) (k : ℕ) :
    poissonPmf lam k = Real.exp (-(lam : ℝ)) * ((scoreMass lam k : ℚ) : ℝ) := by
  rw [poissonPmf, scoreMass]
  push_cast
  ring

theorem poissonPmf_le_iff (lam : ℚ) (j k : ℕ) :
    poissonPmf lam j ≤ poissonPmf lam k ↔ scoreMass lam j ≤ scoreMass lam k := by
  rw [poissonPmf_eq, poissonPmf_eq, mul_le_mul_left (Real.exp_pos _), Rat.cast_le]

theorem poissonPmf_lt_iff (lam : ℚ) (j k : ℕ) :
    poissonPmf lam j < poissonPmf lam k ↔ scoreMass lam j < scoreMass lam k := by
  rw [poissonPmf_eq, poissonPmf_eq, mul_lt_mul_left (Real.exp_pos _), Rat.cast_lt]

/-- Factoring the positive constant `e^(-lambda)` out of every key leaves
the first-maximum selection unchanged: the argmax the predictor computes
on the rational masses is the argmax of the true pmf. -/
theorem maxKeyFirstR_poissonPmf (lam : ℚ) :
    ∀ (ks : List ℕ) (b : ℕ),
      maxKeyFirstR (poissonPmf lam) ks b = maxKeyFirst (scoreMass lam) ks b := by
  intro ks
  induction ks with
  | nil => intro b; rfl
  | cons a rest ih =>
    intro b
    simp only [maxKeyFirstR, maxKeyFirst]
    by_cases h : scoreMass lam b < scoreMass lam a
    · rw [if_pos ((poissonPmf_lt_iff lam b a).mpr h), if_pos h]
      exact ih a
    · rw [if_neg (fun hc => h ((poissonPmf_lt_iff lam b a).mp hc)), if_neg h]
      exact ih b

/-- Invariant of `max(iterable, key=f)`: over a strictly increasing key
list, the result is a key attaining the maximum, and every strictly
smaller key has a strictly smaller value (so the first maximum wins). -/
theorem maxKeyFirst_spec (f : ℕ → ℚ) :
    ∀ (ks : List ℕ) (best : ℕ), (∀ k ∈ ks, best < k) → List.Pairwise (· < ·) ks →
      ((maxKeyFirst f ks best = best ∨ maxKeyFirst f ks best ∈ ks) ∧
       f best ≤ f (maxKeyFirst f ks best) ∧
       (∀ k ∈ ks, f k ≤ f (maxKeyFirst f ks best)) ∧
       (∀ k, (k = best ∨ k ∈ ks) → k < maxKeyFirst f ks best →
         f k < f (maxKeyFirst f ks best))) := by
  intro ks
  induction ks with
  | nil =>
    intro best _ _
    simp [maxKeyFirst]
  | cons a rest ih =>
    intro best hlt hsort
    obtain ⟨ha_rest, hrest_sorted⟩ := List.pairwise_cons.mp hsort
    simp only [maxKeyFirst]
    by_cases hfa : f best < f a
    · rw [if_pos hfa]
      obtain ⟨hA, hB1, hB2, hC⟩ := ih a ha_rest hrest_sorted
      refine ⟨?_, le_of_lt (lt_of_lt_of_le hfa hB1), ?_, ?_⟩
      · rcases hA with h | h
        · exact Or.inr (by rw [h]; exact List.mem_cons_self a rest)
        · exact Or.inr (List.mem_cons_of_mem a h)
      · intro k hk
        rcases List.mem_cons.mp hk with h | h
        · rw [h]; exact hB1
        · exact hB2 k h
      · intro k hk hkr
        rcases hk with h | h
        · rw [h]; exact lt_of_lt_of_le hfa hB1
        · rcases List.mem_cons.mp h with h' | h'
          · exact hC k (Or.inl h') hkr
          · exact hC k (Or.inr h') hkr
    · rw [if_neg hfa]
      have hfa' : f a ≤ f best := le_of_not_lt hfa
      have hlt_rest : ∀ k ∈ rest, best < k :=
        fun k hk => hlt k (List.mem_cons_of_mem a hk)
      obtain ⟨hA, hB1, hB2, hC⟩ := ih best hlt_rest hrest_sorted
      refine ⟨?_, hB1, ?_, ?_⟩
      · rcases hA with h | h
        · exact Or.inl h
        · exact Or.inr (List.mem_cons_of_mem a h)
      · intro k hk
        rcases List.mem_cons.mp hk with h | h
        · rw [h]; exact le_trans hfa' hB1
        · exact hB2 k h
      · intro k hk hkr
        rcases hk with h | h
        · exact hC k (Or.inl h) hkr
        · rcases List.mem_cons.mp h with h' | h'
          · subst h'
            have hbr : best < maxKeyFirst f rest best :=
              lt_trans (hlt k (List.mem_cons_self k rest)) hkr
            exact lt_of_le_of_lt hfa' (hC best (Or.inl rfl) hbr)
          · exact hC k (Or.inr h') hkr

/-- Specialization to the predictor's key list `0, 1, ..., 5`: the result
is at most any maximizing goal count, and is itself maximizing. -/
theorem maxKeyFirst_argmax_le (f : ℕ → ℚ) (k : ℕ) (hk : k ≤ 5)
    (hmax : ∀ j, j ≤ 5 → f j ≤ f k) :
    maxKeyFirst f scoreKeysTail 0 ≤ k ∧
    (∀ j, j ≤ 5 → f j ≤ f (maxKeyFirst f scoreKeysTail 0)) := by
  obtain ⟨hA, hB1, hB2, hC⟩ := maxKeyFirst_spec f scoreKeysTail 0 (by decide) (by decide)
  have hmem_iff : ∀ j : ℕ, j ≤ 5 → (j = 0 ∨ j ∈ scoreKeysTail) := by
    intro j hj
    interval_cases j <;> simp [scoreKeysTail]
  have hr5 : maxKeyFirst f scoreKeysTail 0 ≤ 5 := by
    rcases hA with h | h
    · omega
    · have hall : ∀ x ∈ scoreKeysTail, x ≤ 5 := by decide
      exact hall _ h
  have hrmax : ∀ j, j ≤ 5 → f j ≤ f (maxKeyFirst f scoreKeysTail 0) := by
    intro j hj
    rcases hmem_iff j hj with h | h
    · rw [h]; exact hB1
    · exact hB2 j h
  refine ⟨?_, hrmax⟩
  by_contra hlt'
  push_neg at hlt'
  exact absurd (hC k (hmem_iff k hk) hlt') (not_lt.mpr (hmax _ hr5))

/-! ### Claim C7 -/

/-- Claim C7: whenever a goal count `k ≤ 5` maximizes the true Poisson
mass, the predictor's argmax (computed by `max(dist, key=dist.get)` over
the masses) is at most `k` and itself attains the maximum — so when two
or more goal counts tie for the maximum, the smallest one is selected,
for each side's distribution independently. -/
theorem argmax_tie_breaks_to_smallest (lam : ℚ) (k : ℕ) (hk : k ≤ 5)
    (hmax : ∀ j, j ≤ 5 → poissonPmf lam j ≤ poissonPmf lam k) :
    maxKeyFirst (scoreMass lam) scoreKeysTail 0 ≤ k ∧
    (∀ j, j ≤ 5 →
      poissonPmf lam j ≤ poissonPmf lam (maxKeyFirst (scoreMass lam) scoreKeysTail 0)) := by
  have hmax' : ∀ j, j ≤ 5 → scoreMass lam j ≤ scoreMass lam k :=
    fun j hj => (poissonPmf_le_iff lam j k).mp (hmax j hj)
  obtain ⟨h1, h2⟩ := maxKeyFirst_argmax_le (scoreMass lam) k hk hmax'
  exact ⟨h1, fun j hj => (poissonPmf_le_iff lam j _).mpr (h2 j hj)⟩

/-- Claim C7, witness: with `lambda = 2` the masses at `k = 1` and
`k = 2` tie for the maximum, and the predictor picks `1`, the smaller. -/
theorem argmax_tie_breaks_to_smallest_witness :
    maxKeyFirst (scoreMass 2) scoreKeysTail 0 ≤ 2 ∧
    maxKeyFirst (scoreMass 2) scoreKeysTail 0 = 1 ∧
    scoreMass 2 1 = scoreMass 2 2 := by
  have hmax : ∀ j, j ≤ 5 → scoreMass 2 j ≤ scoreMass 2 2 := by
    with_unfolding_all decide
  refine ⟨(argmax_tie_breaks_to_smallest 2 2 (by decide)
    (fun j hj => (poissonPmf_le_iff 2 j 2).mpr (hmax j hj))).1, ?_, ?_⟩
  · with_unfolding_all decide
  · with_unfolding_all decide

/-! ### Claim C3 -/

/-- Claim C3: with both teams present, `predict` returns the score
string `H-A` where each side's goal count is the first argmax over
`k = 0..5` of its score distribution — equal, by the factoring lemma, to
the argmax of the true Poisson pmf at `lambda_home = atk_home(home) *
def_away(away) / league_avg` and `lambda_away = atk_away(away) *
def_home(home) / league_avg`, with `league_avg` the mean of all
`atk_home`/`atk_away` cells recomputed from the current table — and an
`expected_xg` equal to the average of the two lambdas rounded to 2
places. -/
theorem predict_poisson_model (tbl : StrengthTable) (home away : String) (rh ra : TeamRow)
    (h1 : lookupRow tbl home = some rh) (h2 : lookupRow tbl away = some ra) :
    predict tbl home away = Except.ok
      { home_team := home, away_team := away
        predicted_score :=
          toString (maxKeyFirst
            (scoreMass (rh.atk_home * ra.def_away / predictLeagueAvg tbl)) scoreKeysTail 0)
          ++ "-" ++
          toString (maxKeyFirst
            (scoreMass (ra.atk_away * rh.def_home / predictLeagueAvg tbl)) scoreKeysTail 0)
        expected_xg := pyRound ((rh.atk_home * ra.def_away / predictLeagueAvg tbl +
            ra.atk_away * rh.def_home / predictLeagueAvg tbl) / 2) 2 } ∧
    maxKeyFirst (scoreMass (rh.atk_home * ra.def_away / predictLeagueAvg tbl)) scoreKeysTail 0 =
      maxKeyFirstR (poissonPmf (rh.atk_home * ra.def_away / predictLeagueAvg tbl))
        scoreKeysTail 0 ∧
    maxKeyFirst (scoreMass (ra.atk_away * rh.def_home / predictLeagueAvg tbl)) scoreKeysTail 0 =
      maxKeyFirstR (poissonPmf (ra.atk_away * rh.def_home / predictLeagueAvg tbl))
        scoreKeysTail 0 := by
  refine ⟨?_, (maxKeyFirstR_poissonPmf _ scoreKeysTail 0).symm,
    (maxKeyFirstR_poissonPmf _ scoreKeysTail 0).symm⟩
  have hxg : (rh.atk_home * ra.def_away + ra.atk_away * rh.def_home) /
      (2 * predictLeagueAvg tbl) =
      (rh.atk_home * ra.def_away / predictLeagueAvg tbl +
       ra.atk_away * rh.def_home / predictLeagueAvg tbl) / 2 := by
    rw [div_add_div_same, div_div, mul_comm (predictLeagueAvg tbl) 2]
  simp only [predict, h1, h2, poisson_score, hxg]

/-- Claim C3, witness: the specification's worked example — Arsenal
hosting Liverpool on `tblExample` (league average `3/2`, lambdas `4/3`
and `1`) predicts `1-0` with expected xG `1.17`. -/
theorem predict_poisson_model_witness :
    predict tblExample "Arsenal" "Liverpool" =
      Except.ok ⟨"Arsenal", "Liverpool", "1-0", 117 / 100⟩ :=
  (predict_poisson_model tblExample "Arsenal" "Liverpool" ⟨2, 1, 3/2, 1⟩ ⟨1, 1, 3/2, 1⟩
    (by with_unfolding_all decide) (by with_unfolding_all decide)).1.trans
    (by with_unfolding_all decide)

/-! ### Path lemmas for the output step -/

theorem splitext_append (cs : List Char) : (splitext cs).1 ++ (splitext cs).2 = cs := by
  rw [splitext]
  cases hdw : ((cs.reverse.takeWhile (fun c => c != '/')).dropWhile (fun c => c != '.')) with
  | nil => simp
  | cons hd tl =>
    by_cases hany : tl.any (fun c => c != '.')
    · simp only [hany, if_true]
      rw [← List.reverse_append, List.take_append_drop, List.reverse_reverse]
    · simp [hany]

theorem dirnameCh_eq_nil (cs : List Char) (h : '/' ∉ cs) : dirnameCh cs = [] := by
  rw [dirnameCh]
  have hd : cs.reverse.dropWhile (fun c => c != '/') = [] := by
    rw [List.dropWhile_eq_nil_iff]
    intro x hx
    simp only [bne_iff_ne, ne_eq]
    intro hc
    exact h (hc ▸ List.mem_reverse.mp hx)
  rw [hd]
  simp

theorem mem_versionedPath (out v : List Char) (c : Char) (hc : c ∈ versionedPath out v) :
    c ∈ out ∨ c = '_' ∨ c ∈ v := by
  rw [versionedPath] at hc
  rcases List.mem_append.mp hc with h1 | h2
  · rcases List.mem_append.mp h1 with ha | hb
    · left
      rw [← splitext_append out]
      exact List.mem_append_left _ ha
    · rcases List.mem_cons.mp hb with h | h
      · exact Or.inr (Or.inl h)
      · exact Or.inr (Or.inr h)
  · left
    rw [← splitext_append out]
    exact List.mem_append_right _ h2

/-! ### Claim C10 -/

/-- Claim C10: for any history and recognized fill strategy, when the
output path has no directory component (and the version tag introduces
none), the versioned path is slash-free, so `os.path.dirname` yields the
empty name and `os.makedirs` raises `FileNotFoundError` before any table
is written — `compute_strengths` fails with no output. -/
theorem bare_filename_output_fails (df : List MatchRecord) (fm : String) (out v : List Char)
    (hfm : fm = "league_mean" ∨ fm = "team_median" ∨ fm = "zero")
    (hout : '/' ∉ out) (hv : '/' ∉ v) :
    compute_strengths df out fm v = Except.error (EstimatorError.fileNotFoundError []) := by
  have hvp : '/' ∉ versionedPath out v := by
    intro hc
    rcases mem_versionedPath out v '/' hc with h | h | h
    · exact hout h
    · exact absurd h (by decide)
    · exact hv h
  have hdir : dirnameCh (versionedPath out v) = [] := dirnameCh_eq_nil _ hvp
  rcases hfm with h | h | h <;> subst h <;>
    simp [compute_strengths, makedirs, hdir]

/-- Claim C10, witness: a bare `t.csv` output filename fails under the
`zero` strategy. -/
theorem bare_filename_output_fails_witness :
    compute_strengths [] "t.csv".toList "zero" "v1".toList =
      Except.error (EstimatorError.fileNotFoundError []) :=
  bare_filename_output_fails [] "zero" "t.csv".toList "v1".toList
    (Or.inr (Or.inr rfl)) (by decide) (by decide)
